import Mathlib

/-!
Shallow embedding of the appointment booking and slot-concurrency subsystem of
the findmyvet backend (src/backend/app/routers/appointments.py and
src/backend/app/routers/availability.py), together with proofs about the
booking engine: capacity invariants, transactional atomicity, error outcomes,
and the availability query.

Modelling conventions:
- ids, dates and times are natural numbers; occupancy counters are integers
  (the SQL column is an integer and the GREATEST clamp in the source is only
  meaningful over integers);
- each SQL table is a list of records; SELECT ... WHERE id = x maps to
  List.find?, UPDATE ... WHERE id = x maps to a List.map that rewrites every
  row whose id matches (primary-key uniqueness of real tables is an explicit
  Nodup hypothesis where a proof needs it);
- each endpoint body is a function Db -> Except ApiError Db; the single
  db.commit() at the end of the endpoint together with the rollback-on-error
  behaviour of the session context manager in src/backend/app/db.py (get_db)
  is modelled by commitOf: an error leaves the committed database unchanged.
-/

namespace FindMyVet

/-- Visit kind shared by AppointmentType and SlotType in
src/backend/app/schemas/appointments.py (both enums have the same two string
values, and the source compares them by value). -/
inductive VisitKind where
  | in_person
  | home_visit
deriving DecidableEq

/-- AppointmentStatus from src/backend/app/schemas/appointments.py. -/
inductive AppointmentStatus where
  | booked
  | rescheduled
  | cancelled_by_owner
  | cancelled_by_clinic
  | no_show
  | completed
deriving DecidableEq

/-- One row of the availability_slots table. -/
structure Slot where
  id : Nat
  clinic_id : Nat
  vet_id : Option Nat
  slot_date : Nat
  start_time : Nat
  end_time : Nat
  slot_type : VisitKind
  is_blocked : Bool
  current_bookings : Int
  max_bookings : Int
  service_id : Option Nat
deriving DecidableEq

/-- One row of the pets table (the fields the booking engine reads). -/
structure Pet where
  id : Nat
  owner_id : Nat
deriving DecidableEq

/-- One row of the services table (the fields the booking engine reads). -/
structure Service where
  id : Nat
  is_emergency : Bool
  is_active : Bool
deriving DecidableEq

/-- One row of the appointments table. -/
structure Appointment where
  id : Nat
  confirmation_code : Nat
  clinic_id : Nat
  slot_id : Option Nat
  owner_id : Nat
  pet_id : Nat
  vet_id : Option Nat
  service_id : Nat
  appointment_type : VisitKind
  scheduled_date : Nat
  scheduled_start : Nat
  scheduled_end : Nat
  home_address_line1 : Option String
  home_address_line2 : Option String
  home_city : Option String
  home_state : Option String
  home_postal_code : Option String
  home_access_notes : Option String
  owner_notes : Option String
  is_emergency : Bool
  status : AppointmentStatus
  cancelled_by : Option Nat
  cancellation_reason : Option String
  cancelled_at : Option Nat
  created_at : Nat
  updated_at : Nat
deriving DecidableEq

/-- The database state visible to the booking engine. -/
structure Db where
  clinics : List Nat
  pets : List Pet
  services : List Service
  slots : List Slot
  appointments : List Appointment
deriving DecidableEq

/-- An HTTPException as raised by the endpoints: status code and detail. -/
structure ApiError where
  status : Nat
  detail : String
deriving DecidableEq

/-- AppointmentCreateRequest from src/backend/app/schemas/appointments.py. -/
structure AppointmentCreateRequest where
  clinic_id : Nat
  slot_id : Nat
  pet_id : Nat
  service_id : Nat
  appointment_type : VisitKind
  owner_notes : Option String
  home_address_line1 : Option String
  home_address_line2 : Option String
  home_city : Option String
  home_state : Option String
  home_postal_code : Option String
  home_access_notes : Option String
deriving DecidableEq

/-- UPDATE availability_slots SET current_bookings = f(current_bookings)
WHERE id = sid: rewrites every row whose id matches. -/
def bumpBookings (slots : List Slot) (sid : Nat) (f : Int → Int) : List Slot :=
  slots.map (fun s => if s.id = sid then { s with current_bookings := f s.current_bookings } else s)

/-- UPDATE appointments SET ... WHERE id = aid. -/
def updateAppointments (appts : List Appointment) (aid : Nat) (f : Appointment → Appointment) :
    List Appointment :=
  appts.map (fun a => if a.id = aid then f a else a)

/-- Modelled from the spec: the database function generate_confirmation_code
(called at src/backend/app/routers/appointments.py line 279) is defined in SQL
migrations that are not part of src/. Per spec section 4.3 step 8 it draws
candidate codes and, on a uniqueness collision with an existing code,
regenerates and retries a bounded number of times before giving up. The
bounded candidate stream is the explicit list argument; the existing codes are
the collision set; exhaustion returns none (surfaced as Internal by the
caller). -/
def generate_confirmation_code (candidates : List Nat) (existing : List Nat) : Option Nat :=
  match candidates with
  | [] => none
  | c :: rest => if c ∈ existing then generate_confirmation_code rest existing else some c

/-- The appointment row inserted by create_appointment
(src/backend/app/routers/appointments.py lines 286-362): snapshot of the
slot's date/start/end/vet, status booked, is_emergency copied from the
service row. -/
def newAppointmentRow (request : AppointmentCreateRequest) (userId : Nat) (slot : Slot)
    (code : Nat) (newApptId : Nat) (now : Nat) (svcEmergency : Bool) : Appointment :=
  { id := newApptId
    confirmation_code := code
    clinic_id := request.clinic_id
    slot_id := some request.slot_id
    owner_id := userId
    pet_id := request.pet_id
    vet_id := slot.vet_id
    service_id := request.service_id
    appointment_type := request.appointment_type
    scheduled_date := slot.slot_date
    scheduled_start := slot.start_time
    scheduled_end := slot.end_time
    home_address_line1 := request.home_address_line1
    home_address_line2 := request.home_address_line2
    home_city := request.home_city
    home_state := request.home_state
    home_postal_code := request.home_postal_code
    home_access_notes := request.home_access_notes
    owner_notes := request.owner_notes
    is_emergency := svcEmergency
    status := .booked
    cancelled_by := none
    cancellation_reason := none
    cancelled_at := none
    created_at := now
    updated_at := now }

/-- POST /appointments, create_appointment in
src/backend/app/routers/appointments.py lines 152-381, check for check in
source order. codeCandidates feeds the spec-modelled confirmation-code
generator; newApptId is the fresh primary key the store would assign; now is
the clock reading. -/
def create_appointment (db : Db) (request : AppointmentCreateRequest) (userId : Nat)
    (codeCandidates : List Nat) (newApptId : Nat) (now : Nat) : Except ApiError Db :=
  if ¬ request.clinic_id ∈ db.clinics then
    .error ⟨404, "Clinic not found"⟩
  else
    match db.pets.find? (fun p => p.id = request.pet_id ∧ p.owner_id = userId) with
    | none => .error ⟨404, "Pet not found"⟩
    | some _ =>
      match db.services.find? (fun s => s.id = request.service_id ∧ s.is_active) with
      | none => .error ⟨404, "Service not found"⟩
      | some service =>
        match db.slots.find? (fun s => s.id = request.slot_id) with
        | none => .error ⟨404, "Slot not found"⟩
        | some slot =>
          if slot.clinic_id ≠ request.clinic_id then
            .error ⟨400, "Slot does not belong to clinic"⟩
          else if slot.is_blocked = true ∨ slot.max_bookings ≤ slot.current_bookings then
            .error ⟨409, "Slot is no longer available"⟩
          else if slot.slot_type ≠ request.appointment_type then
            .error ⟨400, "Slot type does not match appointment type"⟩
          else if slot.service_id.isSome = true ∧ slot.service_id ≠ some request.service_id then
            .error ⟨400, "Slot is not compatible with requested service"⟩
          else
            match generate_confirmation_code codeCandidates
                (db.appointments.map (·.confirmation_code)) with
            | none => .error ⟨500, "Failed to generate confirmation code"⟩
            | some code =>
              .ok { db with
                    appointments := db.appointments ++
                      [newAppointmentRow request userId slot code newApptId now
                        service.is_emergency]
                    slots := bumpBookings db.slots request.slot_id (fun cb => cb + 1) }

/-- PATCH /appointments/id/reschedule, reschedule_appointment in
src/backend/app/routers/appointments.py lines 557-674. -/
def reschedule_appointment (db : Db) (appointment_id : Nat) (new_slot_id : Nat)
    (callerId : Nat) (now : Nat) : Except ApiError Db :=
  match db.appointments.find? (fun a => a.id = appointment_id) with
  | none => .error ⟨404, "Appointment not found"⟩
  | some appt =>
    if appt.owner_id ≠ callerId then
      .error ⟨403, "Not authorized"⟩
    else if appt.status ≠ .booked ∧ appt.status ≠ .rescheduled then
      .error ⟨400, "Appointment cannot be rescheduled"⟩
    else
      match db.slots.find? (fun s => s.id = new_slot_id) with
      | none => .error ⟨404, "New slot not found"⟩
      | some new_slot =>
        if new_slot.clinic_id ≠ appt.clinic_id then
          .error ⟨400, "New slot must be at the same clinic"⟩
        else if new_slot.is_blocked = true ∨ new_slot.max_bookings ≤ new_slot.current_bookings then
          .error ⟨409, "New slot is no longer available"⟩
        else if new_slot.service_id.isSome = true ∧ new_slot.service_id ≠ some appt.service_id then
          .error ⟨400, "New slot is not compatible with appointment service"⟩
        else
          let slots1 :=
            match appt.slot_id with
            | some old_slot_id => bumpBookings db.slots old_slot_id (fun cb => max (cb - 1) 0)
            | none => db.slots
          let slots2 := bumpBookings slots1 new_slot_id (fun cb => cb + 1)
          let appointments2 := updateAppointments db.appointments appointment_id
            (fun a => { a with
                        slot_id := some new_slot_id
                        vet_id := new_slot.vet_id
                        scheduled_date := new_slot.slot_date
                        scheduled_start := new_slot.start_time
                        scheduled_end := new_slot.end_time
                        status := .rescheduled
                        updated_at := now })
          .ok { db with slots := slots2, appointments := appointments2 }

/-- POST /appointments/id/cancel, cancel_appointment in
src/backend/app/routers/appointments.py lines 689-771. -/
def cancel_appointment (db : Db) (appointment_id : Nat) (callerId : Nat)
    (reason : Option String) (now : Nat) : Except ApiError Db :=
  match db.appointments.find? (fun a => a.id = appointment_id) with
  | none => .error ⟨404, "Appointment not found"⟩
  | some appt =>
    if appt.owner_id ≠ callerId then
      .error ⟨403, "Not authorized"⟩
    else if appt.status ≠ .booked ∧ appt.status ≠ .rescheduled then
      .error ⟨400, "Appointment cannot be cancelled"⟩
    else
      let appointments2 := updateAppointments db.appointments appointment_id
        (fun a => { a with
                    status := .cancelled_by_owner
                    cancelled_by := some callerId
                    cancellation_reason := reason
                    cancelled_at := some now
                    updated_at := now })
      let slots2 :=
        match appt.slot_id with
        | some slot_id => bumpBookings db.slots slot_id (fun cb => max (cb - 1) 0)
        | none => db.slots
      .ok { db with slots := slots2, appointments := appointments2 }

/-- The committed database after a request: the one db.commit() at the end of
each endpoint publishes the transaction; on an HTTPException the session from
get_db (src/backend/app/db.py) is closed uncommitted, rolling everything
back. -/
def commitOf (db : Db) (r : Except ApiError Db) : Db :=
  match r with
  | .error _ => db
  | .ok db2 => db2

/-- The HTTPException a request raised, if any. -/
def errorOf (r : Except ApiError Db) : Option ApiError :=
  match r with
  | .error e => some e
  | .ok _ => none

/-- One request against the booking engine, with the data the store or clock
supplies (fresh primary key, candidate confirmation codes, current time). -/
inductive BookingOp where
  | book (request : AppointmentCreateRequest) (userId : Nat) (codeCandidates : List Nat)
      (newApptId now : Nat)
  | reschedule (appointment_id new_slot_id callerId now : Nat)
  | cancel (appointment_id callerId : Nat) (reason : Option String) (now : Nat)

/-- The committed database after one request: each endpoint either commits its
transaction or rolls back wholesale. -/
def applyOp (db : Db) : BookingOp → Db
  | .book request userId codeCandidates newApptId now =>
      commitOf db (create_appointment db request userId codeCandidates newApptId now)
  | .reschedule appointment_id new_slot_id callerId now =>
      commitOf db (reschedule_appointment db appointment_id new_slot_id callerId now)
  | .cancel appointment_id callerId reason now =>
      commitOf db (cancel_appointment db appointment_id callerId reason now)

/-- The committed database after a sequence of requests (the row lock
serializes writers on a slot, so a history is a sequence). -/
def applyOps (db : Db) (ops : List BookingOp) : Db := ops.foldl applyOp db

/-- The occupancy counter of the slot row with the given id, if present. -/
def slotBookings (db : Db) (sid : Nat) : Option Int :=
  (db.slots.find? (fun s => s.id = sid)).map (·.current_bookings)

/-- The fields of an appointment detail response that come from the
appointments row itself. -/
structure AppointmentView where
  confirmation_code : Nat
  appointment_type : VisitKind
  scheduled_date : Nat
  scheduled_start : Nat
  scheduled_end : Nat
  status : AppointmentStatus
deriving DecidableEq

/-- _load_appointment_response (src/backend/app/routers/appointments.py lines
37-132): the SELECT reads the scheduled fields, type and status from the
appointments row alone; its joins reach clinics/pets/species/breeds/services
/vets/users for display names and never availability_slots. -/
def load_appointment_response (db : Db) (appointment_id : Nat) : Option AppointmentView :=
  (db.appointments.find? (fun a => a.id = appointment_id)).map
    (fun a => { confirmation_code := a.confirmation_code
                appointment_type := a.appointment_type
                scheduled_date := a.scheduled_date
                scheduled_start := a.scheduled_start
                scheduled_end := a.scheduled_end
                status := a.status })

/-- ORDER BY s.slot_date, s.start_time as a boolean comparison. -/
def slotOrder (a b : Slot) : Bool :=
  a.slot_date < b.slot_date ∨ (a.slot_date = b.slot_date ∧ a.start_time ≤ b.start_time)

/-- The WHERE clause of the availability query
(src/backend/app/routers/availability.py lines 168-174). -/
def offerableFilter (clinic_id service_id start_date end_date : Nat) (slot_type : VisitKind)
    (vet_id : Option Nat) (s : Slot) : Bool :=
  s.clinic_id = clinic_id ∧
    (start_date ≤ s.slot_date ∧ s.slot_date ≤ end_date) ∧
    s.is_blocked = false ∧
    s.current_bookings < s.max_bookings ∧
    s.slot_type = slot_type ∧
    (s.service_id = none ∨ s.service_id = some service_id) ∧
    (vet_id = none ∨ s.vet_id = vet_id)

/-- The slot-row query of get_available_slots
(src/backend/app/routers/availability.py lines 149-180): rows of the clinic in
the date range, unblocked, with remaining capacity, of the requested kind,
with a null or matching service constraint, optionally filtered by vet,
ordered by slot date then start time. -/
def get_available_slots (db : Db) (clinic_id service_id start_date end_date : Nat)
    (slot_type : VisitKind) (vet_id : Option Nat) : List Slot :=
  (db.slots.filter
      (offerableFilter clinic_id service_id start_date end_date slot_type vet_id)).mergeSort
    slotOrder

/-- Example appointment row builder for concrete test databases: clinic 1,
pet 20, service 1, no vet, no home-visit fields. -/
def exAppt (id code : Nat) (slot_id : Option Nat) (owner_id : Nat) (kind : VisitKind)
    (status : AppointmentStatus) (sd st en : Nat) : Appointment :=
  { id := id, confirmation_code := code, clinic_id := 1, slot_id := slot_id
    owner_id := owner_id, pet_id := 20, vet_id := none, service_id := 1
    appointment_type := kind, scheduled_date := sd, scheduled_start := st, scheduled_end := en
    home_address_line1 := none, home_address_line2 := none, home_city := none
    home_state := none, home_postal_code := none, home_access_notes := none
    owner_notes := none, is_emergency := false, status := status
    cancelled_by := none, cancellation_reason := none, cancelled_at := none
    created_at := 0, updated_at := 0 }

/-- Open in-person slot of clinic 1 (0 of 1 booked). -/
def exSlot1 : Slot :=
  { id := 1, clinic_id := 1, vet_id := none, slot_date := 100, start_time := 540
    end_time := 570, slot_type := .in_person, is_blocked := false
    current_bookings := 0, max_bookings := 1, service_id := none }

/-- Service-constrained in-person slot of clinic 1 (0 of 2 booked). -/
def exSlot2 : Slot :=
  { id := 2, clinic_id := 1, vet_id := some 7, slot_date := 101, start_time := 540
    end_time := 570, slot_type := .in_person, is_blocked := false
    current_bookings := 0, max_bookings := 2, service_id := some 1 }

/-- Full in-person slot of clinic 1 (1 of 1 booked). -/
def exSlot3 : Slot :=
  { id := 3, clinic_id := 1, vet_id := none, slot_date := 102, start_time := 540
    end_time := 570, slot_type := .in_person, is_blocked := false
    current_bookings := 1, max_bookings := 1, service_id := none }

/-- Blocked slot of clinic 1. -/
def exSlot4 : Slot :=
  { id := 4, clinic_id := 1, vet_id := none, slot_date := 103, start_time := 540
    end_time := 570, slot_type := .in_person, is_blocked := true
    current_bookings := 0, max_bookings := 1, service_id := none }

/-- Open home-visit slot of clinic 1. -/
def exSlot5 : Slot :=
  { id := 5, clinic_id := 1, vet_id := none, slot_date := 104, start_time := 540
    end_time := 570, slot_type := .home_visit, is_blocked := false
    current_bookings := 0, max_bookings := 1, service_id := none }

/-- Half-full in-person slot of clinic 1 (1 of 2 booked). -/
def exSlot6 : Slot :=
  { id := 6, clinic_id := 1, vet_id := none, slot_date := 105, start_time := 540
    end_time := 570, slot_type := .in_person, is_blocked := false
    current_bookings := 1, max_bookings := 2, service_id := none }

/-- Booked appointment of user 10 occupying slot 3. -/
def exAppt1 : Appointment := exAppt 1 901 (some 3) 10 .in_person .booked 102 540 570

/-- Already-cancelled appointment of user 10. -/
def exAppt2 : Appointment := exAppt 2 902 none 10 .in_person .cancelled_by_owner 102 540 570

/-- Booked appointment of user 11 occupying slot 1. -/
def exAppt3 : Appointment := exAppt 3 903 (some 1) 11 .in_person .booked 100 540 570

/-- Rescheduled home-visit appointment of user 10 occupying slot 6. -/
def exAppt4 : Appointment := exAppt 4 904 (some 6) 10 .home_visit .rescheduled 105 540 570

/-- Concrete test database: clinic 1; pet 20 owned by user 10; active
service 1; six slots (1 open, 2 service-constrained, 3 full, 4 blocked,
5 home-visit, 6 half-full with capacity 2); appointments 1 (booked, slot 3),
2 (already cancelled), 3 (owned by user 11), 4 (rescheduled, slot 6,
home visit). -/
def exDb : Db :=
  { clinics := [1]
    pets := [{ id := 20, owner_id := 10 }]
    services := [{ id := 1, is_emergency := false, is_active := true }]
    slots := [exSlot1, exSlot2, exSlot3, exSlot4, exSlot5, exSlot6]
    appointments := [exAppt1, exAppt2, exAppt3, exAppt4] }

/-- A valid booking request for slot 1 of exDb. -/
def exReq : AppointmentCreateRequest :=
  { clinic_id := 1, slot_id := 1, pet_id := 20, service_id := 1
    appointment_type := .in_person, owner_notes := none
    home_address_line1 := none, home_address_line2 := none, home_city := none
    home_state := none, home_postal_code := none, home_access_notes := none }

/-- A booking request for the full slot 3 of exDb. -/
def exReqFull : AppointmentCreateRequest :=
  { exReq with slot_id := 3 }

/-- A booking request whose type (in_person) mismatches slot 5 (home_visit). -/
def exReqKindMismatch : AppointmentCreateRequest :=
  { exReq with slot_id := 5 }

/-- The capacity invariant over a list of slot rows: occupancy is between 0
and capacity on every row. -/
def SlotInvList (slots : List Slot) : Prop :=
  ∀ s ∈ slots, 0 ≤ s.current_bookings ∧ s.current_bookings ≤ s.max_bookings

/-- The capacity invariant of spec section 3 for a whole database. -/
def SlotInv (db : Db) : Prop := SlotInvList db.slots

/-- Primary-key uniqueness of availability_slots: ids are distinct. -/
def WfSlots (db : Db) : Prop := (db.slots.map Slot.id).Nodup

theorem mem_bumpBookings_iff {slots : List Slot} {sid : Nat} {f : Int → Int} {t : Slot} :
    t ∈ bumpBookings slots sid f ↔
      ∃ s ∈ slots,
        t = if s.id = sid then { s with current_bookings := f s.current_bookings } else s := by
  simp only [bumpBookings, List.mem_map]
  constructor
  · rintro ⟨s, hs, rfl⟩; exact ⟨s, hs, rfl⟩
  · rintro ⟨s, hs, rfl⟩; exact ⟨s, hs, rfl⟩

theorem bumpBookings_map_id (slots : List Slot) (sid : Nat) (f : Int → Int) :
    (bumpBookings slots sid f).map Slot.id = slots.map Slot.id := by
  unfold bumpBookings
  rw [List.map_map]
  apply List.map_congr_left
  intro s _
  by_cases h : s.id = sid <;> simp [h]

theorem bumpBookings_cons (s : Slot) (rest : List Slot) (sid : Nat) (f : Int → Int) :
    bumpBookings (s :: rest) sid f =
      (if s.id = sid then { s with current_bookings := f s.current_bookings } else s) ::
        bumpBookings rest sid f := rfl

theorem updateAppointments_cons (a : Appointment) (rest : List Appointment) (aid : Nat)
    (f : Appointment → Appointment) :
    updateAppointments (a :: rest) aid f =
      (if a.id = aid then f a else a) :: updateAppointments rest aid f := rfl

theorem find?_bumpBookings_self (slots : List Slot) (sid : Nat) (f : Int → Int) :
    (bumpBookings slots sid f).find? (fun s => s.id = sid) =
      (slots.find? (fun s => s.id = sid)).map
        (fun s => { s with current_bookings := f s.current_bookings }) := by
  induction slots with
  | nil => rfl
  | cons s rest ih =>
    by_cases hs : s.id = sid
    · rw [bumpBookings_cons, if_pos hs]
      rw [List.find?_cons_of_pos _ (by simpa using hs),
          List.find?_cons_of_pos _ (by simpa using hs)]
      rfl
    · rw [bumpBookings_cons, if_neg hs]
      rw [List.find?_cons_of_neg _ (by simpa using hs),
          List.find?_cons_of_neg _ (by simpa using hs)]
      exact ih

theorem find?_bumpBookings_ne (slots : List Slot) (sid tid : Nat) (f : Int → Int)
    (h : tid ≠ sid) :
    (bumpBookings slots sid f).find? (fun s => s.id = tid) =
      slots.find? (fun s => s.id = tid) := by
  induction slots with
  | nil => rfl
  | cons s rest ih =>
    by_cases hs : s.id = sid
    · have hst : ¬ s.id = tid := fun hh => h (by rw [← hh, hs])
      rw [bumpBookings_cons, if_pos hs]
      rw [List.find?_cons_of_neg _ (by simpa using hst),
          List.find?_cons_of_neg _ (by simpa using hst)]
      exact ih
    · rw [bumpBookings_cons, if_neg hs]
      by_cases hst : s.id = tid
      · rw [List.find?_cons_of_pos _ (by simpa using hst),
            List.find?_cons_of_pos _ (by simpa using hst)]
      · rw [List.find?_cons_of_neg _ (by simpa using hst),
            List.find?_cons_of_neg _ (by simpa using hst)]
        exact ih

theorem find?_updateAppointments_self (appts : List Appointment) (aid : Nat)
    (f : Appointment → Appointment) (hf : ∀ a, (f a).id = a.id) :
    (updateAppointments appts aid f).find? (fun a => a.id = aid) =
      (appts.find? (fun a => a.id = aid)).map f := by
  induction appts with
  | nil => rfl
  | cons a rest ih =>
    by_cases ha : a.id = aid
    · rw [updateAppointments_cons, if_pos ha]
      rw [List.find?_cons_of_pos _ (by simpa [hf] using ha),
          List.find?_cons_of_pos _ (by simpa using ha)]
      rfl
    · rw [updateAppointments_cons, if_neg ha]
      rw [List.find?_cons_of_neg _ (by simpa using ha),
          List.find?_cons_of_neg _ (by simpa using ha)]
      exact ih

theorem slotInvList_bump_dec {slots : List Slot} (sid : Nat) (h : SlotInvList slots) :
    SlotInvList (bumpBookings slots sid (fun cb => max (cb - 1) 0)) := by
  intro t ht
  obtain ⟨s, hs, rfl⟩ := mem_bumpBookings_iff.mp ht
  have hinv := h s hs
  by_cases hid : s.id = sid
  · rw [if_pos hid]
    refine ⟨le_max_right _ _, ?_⟩
    show max (s.current_bookings - 1) 0 ≤ s.max_bookings
    exact max_le (by omega) (by omega)
  · rw [if_neg hid]
    exact hinv

theorem slotInvList_bump_inc {slots : List Slot} (sid : Nat) (h : SlotInvList slots)
    (hguard : ∀ s ∈ slots, s.id = sid → s.current_bookings < s.max_bookings) :
    SlotInvList (bumpBookings slots sid (fun cb => cb + 1)) := by
  intro t ht
  obtain ⟨s, hs, rfl⟩ := mem_bumpBookings_iff.mp ht
  have hinv := h s hs
  by_cases hid : s.id = sid
  · rw [if_pos hid]
    have := hguard s hs hid
    refine ⟨?_, ?_⟩
    · show 0 ≤ s.current_bookings + 1
      omega
    · show s.current_bookings + 1 ≤ s.max_bookings
      omega
  · rw [if_neg hid]
    exact hinv

theorem create_appointment_ok {db : Db} {request : AppointmentCreateRequest} {userId : Nat}
    {codeCandidates : List Nat} {newApptId now : Nat} {db2 : Db}
    (h : create_appointment db request userId codeCandidates newApptId now = .ok db2) :
    ∃ slot service code,
      db.slots.find? (fun s => s.id = request.slot_id) = some slot ∧
      db.services.find? (fun s => s.id = request.service_id ∧ s.is_active) = some service ∧
      slot.clinic_id = request.clinic_id ∧
      slot.is_blocked = false ∧
      slot.current_bookings < slot.max_bookings ∧
      slot.slot_type = request.appointment_type ∧
      (slot.service_id = none ∨ slot.service_id = some request.service_id) ∧
      generate_confirmation_code codeCandidates (db.appointments.map (·.confirmation_code))
        = some code ∧
      db2 = { db with
              appointments := db.appointments ++
                [newAppointmentRow request userId slot code newApptId now service.is_emergency]
              slots := bumpBookings db.slots request.slot_id (fun cb => cb + 1) } := by
  unfold create_appointment at h
  split at h
  · exact Except.noConfusion h
  · split at h
    · exact Except.noConfusion h
    · rename_i pet hpet
      split at h
      · exact Except.noConfusion h
      · rename_i hservice
        split at h
        · exact Except.noConfusion h
        · rename_i hslot
          split at h
          · exact Except.noConfusion h
          · rename_i hclinic2
            split at h
            · exact Except.noConfusion h
            · rename_i havail
              split at h
              · exact Except.noConfusion h
              · rename_i htype
                split at h
                · exact Except.noConfusion h
                · rename_i hsvc
                  split at h
                  · exact Except.noConfusion h
                  · rename_i code hcode
                    obtain rfl := Except.ok.inj h
                    rename_i service _ slot _
                    push_neg at havail
                    refine ⟨slot, service, code, hslot, hservice,
                      not_ne_iff.mp hclinic2, ?_, ?_, not_ne_iff.mp htype, ?_, hcode, rfl⟩
                    · simpa using havail.1
                    · exact havail.2
                    · rcases hopt : slot.service_id with _ | sv
                      · exact Or.inl rfl
                      · right
                        by_contra hne
                        exact hsvc ⟨by simp [hopt], by rw [hopt]; exact hne⟩

theorem reschedule_appointment_ok {db : Db} {appointment_id new_slot_id callerId now : Nat}
    {db2 : Db}
    (h : reschedule_appointment db appointment_id new_slot_id callerId now = .ok db2) :
    ∃ appt new_slot,
      db.appointments.find? (fun a => a.id = appointment_id) = some appt ∧
      appt.owner_id = callerId ∧
      (appt.status = .booked ∨ appt.status = .rescheduled) ∧
      db.slots.find? (fun s => s.id = new_slot_id) = some new_slot ∧
      new_slot.clinic_id = appt.clinic_id ∧
      new_slot.is_blocked = false ∧
      new_slot.current_bookings < new_slot.max_bookings ∧
      (new_slot.service_id = none ∨ new_slot.service_id = some appt.service_id) ∧
      db2 = { db with
              slots := bumpBookings
                  (match appt.slot_id with
                   | some old_slot_id =>
                       bumpBookings db.slots old_slot_id (fun cb => max (cb - 1) 0)
                   | none => db.slots)
                  new_slot_id (fun cb => cb + 1)
              appointments := updateAppointments db.appointments appointment_id
                (fun a => { a with
                            slot_id := some new_slot_id
                            vet_id := new_slot.vet_id
                            scheduled_date := new_slot.slot_date
                            scheduled_start := new_slot.start_time
                            scheduled_end := new_slot.end_time
                            status := .rescheduled
                            updated_at := now }) } := by
  unfold reschedule_appointment at h
  split at h
  · exact Except.noConfusion h
  · rename_i appt happt
    split at h
    · exact Except.noConfusion h
    · rename_i howner
      split at h
      · exact Except.noConfusion h
      · rename_i hstatus
        split at h
        · exact Except.noConfusion h
        · rename_i new_slot hslot
          split at h
          · exact Except.noConfusion h
          · rename_i hclinic
            split at h
            · exact Except.noConfusion h
            · rename_i havail
              split at h
              · exact Except.noConfusion h
              · rename_i hsvc
                obtain rfl := Except.ok.inj h
                push_neg at havail
                refine ⟨appt, new_slot, happt, not_ne_iff.mp howner, ?_, hslot,
                  not_ne_iff.mp hclinic, by simpa using havail.1, havail.2, ?_, rfl⟩
                · rcases not_and_or.mp hstatus with h1 | h2
                  · exact Or.inl (not_ne_iff.mp h1)
                  · exact Or.inr (not_ne_iff.mp h2)
                · rcases hopt : new_slot.service_id with _ | sv
                  · exact Or.inl rfl
                  · right
                    by_contra hne
                    exact hsvc ⟨by simp [hopt], by rw [hopt]; exact hne⟩

theorem cancel_appointment_ok {db : Db} {appointment_id callerId : Nat}
    {reason : Option String} {now : Nat} {db2 : Db}
    (h : cancel_appointment db appointment_id callerId reason now = .ok db2) :
    ∃ appt,
      db.appointments.find? (fun a => a.id = appointment_id) = some appt ∧
      appt.owner_id = callerId ∧
      (appt.status = .booked ∨ appt.status = .rescheduled) ∧
      db2 = { db with
              slots := match appt.slot_id with
                 | some slot_id => bumpBookings db.slots slot_id (fun cb => max (cb - 1) 0)
                 | none => db.slots
              appointments := updateAppointments db.appointments appointment_id
                (fun a => { a with
                            status := .cancelled_by_owner
                            cancelled_by := some callerId
                            cancellation_reason := reason
                            cancelled_at := some now
                            updated_at := now }) } := by
  unfold cancel_appointment at h
  split at h
  · exact Except.noConfusion h
  · rename_i appt happt
    split at h
    · exact Except.noConfusion h
    · rename_i howner
      split at h
      · exact Except.noConfusion h
      · rename_i hstatus
        obtain rfl := Except.ok.inj h
        refine ⟨appt, happt, not_ne_iff.mp howner, ?_, rfl⟩
        rcases not_and_or.mp hstatus with h1 | h2
        · exact Or.inl (not_ne_iff.mp h1)
        · exact Or.inr (not_ne_iff.mp h2)

theorem slot_id_of_find? {slots : List Slot} {sid : Nat} {slot : Slot}
    (h : slots.find? (fun s => s.id = sid) = some slot) : slot.id = sid := by
  simpa using List.find?_some h

theorem create_preserves_inv {db : Db} (request : AppointmentCreateRequest) (userId : Nat)
    (codeCandidates : List Nat) (newApptId now : Nat)
    (hwf : WfSlots db) (hinv : SlotInv db) :
    SlotInv (commitOf db (create_appointment db request userId codeCandidates newApptId now)) ∧
    WfSlots (commitOf db (create_appointment db request userId codeCandidates newApptId now)) := by
  cases hres : create_appointment db request userId codeCandidates newApptId now with
  | error e => exact ⟨hinv, hwf⟩
  | ok db2 =>
    obtain ⟨slot, service, code, hslot, hservice, hclin, hblk, hcap, htype, hsvc, hcode, rfl⟩ :=
      create_appointment_ok hres
    have hsid : slot.id = request.slot_id := slot_id_of_find? hslot
    have hsmem := List.mem_of_find?_eq_some hslot
    refine ⟨fun s hs => ?_, ?_⟩
    · refine slotInvList_bump_inc _ hinv (fun t ht hid => ?_) s hs
      have heq : t = slot := List.inj_on_of_nodup_map hwf ht hsmem (by rw [hid, hsid])
      rw [heq]
      exact hcap
    · simpa [WfSlots, commitOf, bumpBookings_map_id] using hwf

theorem reschedule_preserves_inv {db : Db} (appointment_id new_slot_id callerId now : Nat)
    (hwf : WfSlots db) (hinv : SlotInv db) :
    SlotInv (commitOf db (reschedule_appointment db appointment_id new_slot_id callerId now)) ∧
    WfSlots (commitOf db (reschedule_appointment db appointment_id new_slot_id callerId now)) := by
  cases hres : reschedule_appointment db appointment_id new_slot_id callerId now with
  | error e => exact ⟨hinv, hwf⟩
  | ok db2 =>
    obtain ⟨appt, new_slot, happt, howner, hstatus, hslot, hclin, hblk, hcap, hsvc, rfl⟩ :=
      reschedule_appointment_ok hres
    have hnsid : new_slot.id = new_slot_id := slot_id_of_find? hslot
    have hnsmem := List.mem_of_find?_eq_some hslot
    have hnsinv := hinv new_slot hnsmem
    cases hopt : appt.slot_id with
    | none =>
      refine ⟨fun s hs => ?_, ?_⟩
      · refine slotInvList_bump_inc _ hinv (fun t ht hid => ?_) s hs
        have heq : t = new_slot := List.inj_on_of_nodup_map hwf ht hnsmem (by rw [hid, hnsid])
        rw [heq]
        exact hcap
      · simpa [WfSlots, commitOf, bumpBookings_map_id] using hwf
    | some old_slot_id =>
      have hinv1 : SlotInvList (bumpBookings db.slots old_slot_id (fun cb => max (cb - 1) 0)) :=
        slotInvList_bump_dec _ hinv
      refine ⟨fun s hs => ?_, ?_⟩
      · refine slotInvList_bump_inc _ hinv1 (fun t ht hid => ?_) s hs
        obtain ⟨u, hu, rfl⟩ := mem_bumpBookings_iff.mp ht
        by_cases huo : u.id = old_slot_id
        · rw [if_pos huo] at hid ⊢
          have huid : u.id = new_slot_id := hid
          have heq : u = new_slot := List.inj_on_of_nodup_map hwf hu hnsmem (by rw [huid, hnsid])
          subst heq
          show max (u.current_bookings - 1) 0 < u.max_bookings
          have h0 := hinv u hu
          exact max_lt (by omega) (by omega)
        · rw [if_neg huo] at hid ⊢
          have heq : u = new_slot := List.inj_on_of_nodup_map hwf hu hnsmem (by rw [hid, hnsid])
          rw [heq]
          exact hcap
      · simpa [WfSlots, commitOf, bumpBookings_map_id] using hwf

theorem cancel_preserves_inv {db : Db} (appointment_id callerId : Nat) (reason : Option String)
    (now : Nat) (hwf : WfSlots db) (hinv : SlotInv db) :
    SlotInv (commitOf db (cancel_appointment db appointment_id callerId reason now)) ∧
    WfSlots (commitOf db (cancel_appointment db appointment_id callerId reason now)) := by
  cases hres : cancel_appointment db appointment_id callerId reason now with
  | error e => exact ⟨hinv, hwf⟩
  | ok db2 =>
    obtain ⟨appt, happt, howner, hstatus, rfl⟩ := cancel_appointment_ok hres
    cases hopt : appt.slot_id with
    | none => exact ⟨hinv, hwf⟩
    | some slot_id =>
      refine ⟨fun s hs => slotInvList_bump_dec _ hinv s hs, ?_⟩
      simpa [WfSlots, commitOf, bumpBookings_map_id] using hwf

theorem applyOp_preserves_inv (db : Db) (op : BookingOp)
    (hwf : WfSlots db) (hinv : SlotInv db) :
    SlotInv (applyOp db op) ∧ WfSlots (applyOp db op) := by
  cases op with
  | book request userId codeCandidates newApptId now =>
    exact create_preserves_inv request userId codeCandidates newApptId now hwf hinv
  | reschedule appointment_id new_slot_id callerId now =>
    exact reschedule_preserves_inv appointment_id new_slot_id callerId now hwf hinv
  | cancel appointment_id callerId reason now =>
    exact cancel_preserves_inv appointment_id callerId reason now hwf hinv

/-- C1: for every slot the occupancy bound 0 <= current_bookings <=
max_bookings is preserved by every Book, Reschedule and Cancel operation:
Book and Reschedule increment only after the locked-row check
current_bookings < max_bookings, and every decrement is clamped at 0 by
GREATEST, so no reachable sequence of operations (from a well-formed state
satisfying the bound) drives any counter negative or past capacity. -/
theorem booking_ops_preserve_capacity_bounds (db : Db) (ops : List BookingOp)
    (hwf : WfSlots db) (hinv : SlotInv db) :
    SlotInv (applyOps db ops) ∧ WfSlots (applyOps db ops) := by
  induction ops generalizing db with
  | nil => exact ⟨hinv, hwf⟩
  | cons op rest ih =>
    have step := applyOp_preserves_inv db op hwf hinv
    exact ih (applyOp db op) step.2 step.1

/-- C2: Book is all-or-nothing: when create_appointment fails, the committed
database is exactly the pre-transaction database (no appointment row, no
occupancy change); when it succeeds, the committed database couples the one
new appointment row with the one occupancy increment, both published by the
single commit. -/
theorem book_is_atomic (db : Db) (request : AppointmentCreateRequest) (userId : Nat)
    (codeCandidates : List Nat) (newApptId now : Nat) :
    match create_appointment db request userId codeCandidates newApptId now with
    | .error _ =>
        commitOf db (create_appointment db request userId codeCandidates newApptId now) = db
    | .ok db2 =>
        ∃ appt,
          db2.appointments = db.appointments ++ [appt] ∧
          db2.slots = bumpBookings db.slots request.slot_id (fun cb => cb + 1) ∧
          appt.status = .booked ∧
          appt.slot_id = some request.slot_id ∧
          db2.clinics = db.clinics ∧ db2.pets = db.pets ∧ db2.services = db.services := by
  cases hres : create_appointment db request userId codeCandidates newApptId now with
  | error e => simp [commitOf, hres]
  | ok db2 =>
    obtain ⟨slot, service, code, hslot, hservice, hclin, hblk, hcap, htype, hsvc, hcode, rfl⟩ :=
      create_appointment_ok hres
    exact ⟨newAppointmentRow request userId slot code newApptId now service.is_emergency,
      rfl, rfl, rfl, rfl, rfl, rfl, rfl⟩

/-- C3: a Book request whose preliminary validations pass and whose target
slot exists at the requested clinic but is blocked or full fails with exactly
HTTP 409 Conflict and commits nothing; Reschedule to a blocked or full slot of
the same clinic likewise fails with exactly HTTP 409 and commits nothing. -/
theorem full_or_blocked_slot_conflict :
    (∀ (db : Db) (request : AppointmentCreateRequest) (userId : Nat)
        (codeCandidates : List Nat) (newApptId now : Nat) (slot : Slot),
      request.clinic_id ∈ db.clinics →
      (db.pets.find? (fun p => p.id = request.pet_id ∧ p.owner_id = userId)).isSome = true →
      (db.services.find? (fun s => s.id = request.service_id ∧ s.is_active)).isSome = true →
      db.slots.find? (fun s => s.id = request.slot_id) = some slot →
      slot.clinic_id = request.clinic_id →
      (slot.is_blocked = true ∨ slot.max_bookings ≤ slot.current_bookings) →
      create_appointment db request userId codeCandidates newApptId now =
          .error ⟨409, "Slot is no longer available"⟩ ∧
        commitOf db (create_appointment db request userId codeCandidates newApptId now) = db) ∧
    (∀ (db : Db) (appointment_id new_slot_id callerId now : Nat) (appt : Appointment)
        (new_slot : Slot),
      db.appointments.find? (fun a => a.id = appointment_id) = some appt →
      appt.owner_id = callerId →
      (appt.status = .booked ∨ appt.status = .rescheduled) →
      db.slots.find? (fun s => s.id = new_slot_id) = some new_slot →
      new_slot.clinic_id = appt.clinic_id →
      (new_slot.is_blocked = true ∨ new_slot.max_bookings ≤ new_slot.current_bookings) →
      reschedule_appointment db appointment_id new_slot_id callerId now =
          .error ⟨409, "New slot is no longer available"⟩ ∧
        commitOf db (reschedule_appointment db appointment_id new_slot_id callerId now) = db) := by
  constructor
  · intro db request userId codeCandidates newApptId now slot hclinic hpet hsvc hslot hc hfull
    obtain ⟨pet, hpet⟩ := Option.isSome_iff_exists.mp hpet
    obtain ⟨svc, hsvc⟩ := Option.isSome_iff_exists.mp hsvc
    have h : create_appointment db request userId codeCandidates newApptId now =
        .error ⟨409, "Slot is no longer available"⟩ := by
      unfold create_appointment
      rw [if_neg (not_not_intro hclinic)]
      simp only [hpet, hsvc, hslot]
      rw [if_neg (not_not_intro hc), if_pos hfull]
    exact ⟨h, by rw [h]; rfl⟩
  · intro db appointment_id new_slot_id callerId now appt new_slot happt howner hstatus hslot hc
      hfull
    have h : reschedule_appointment db appointment_id new_slot_id callerId now =
        .error ⟨409, "New slot is no longer available"⟩ := by
      unfold reschedule_appointment
      simp only [happt]
      rw [if_neg (not_not_intro howner)]
      have hst : ¬ (appt.status ≠ .booked ∧ appt.status ≠ .rescheduled) := by
        rcases hstatus with h1 | h1 <;> simp [h1]
      rw [if_neg hst]
      simp only [hslot]
      rw [if_neg (not_not_intro hc), if_pos hfull]
    exact ⟨h, by rw [h]; rfl⟩

/-- C7: for an existing appointment, a caller who is not the owner receives
HTTP 403 Forbidden from both Reschedule and Cancel, whatever the
appointment's status: the ownership check precedes the status check. -/
theorem non_owner_forbidden (db : Db) (appointment_id new_slot_id callerId : Nat)
    (reason : Option String) (now : Nat) (appt : Appointment)
    (happt : db.appointments.find? (fun a => a.id = appointment_id) = some appt)
    (hne : appt.owner_id ≠ callerId) :
    reschedule_appointment db appointment_id new_slot_id callerId now =
        .error ⟨403, "Not authorized"⟩ ∧
    cancel_appointment db appointment_id callerId reason now =
        .error ⟨403, "Not authorized"⟩ := by
  constructor
  · unfold reschedule_appointment
    simp only [happt]
    rw [if_pos hne]
  · unfold cancel_appointment
    simp only [happt]
    rw [if_pos hne]

/-- C5: Cancel of an appointment whose status is neither booked nor
rescheduled fails with HTTP 400 and commits nothing; in particular, after a
successful Cancel, cancelling the same appointment again fails with HTTP 400,
so the slot occupancy is never decremented twice. -/
theorem cancel_wrong_status_rejected :
    (∀ (db : Db) (appointment_id callerId : Nat) (reason : Option String) (now : Nat)
        (appt : Appointment),
      db.appointments.find? (fun a => a.id = appointment_id) = some appt →
      appt.owner_id = callerId →
      appt.status ≠ .booked →
      appt.status ≠ .rescheduled →
      cancel_appointment db appointment_id callerId reason now =
          .error ⟨400, "Appointment cannot be cancelled"⟩ ∧
        commitOf db (cancel_appointment db appointment_id callerId reason now) = db) ∧
    (∀ (db : Db) (appointment_id callerId : Nat) (reason reason2 : Option String)
        (now now2 : Nat) (db2 : Db),
      cancel_appointment db appointment_id callerId reason now = .ok db2 →
      cancel_appointment db2 appointment_id callerId reason2 now2 =
          .error ⟨400, "Appointment cannot be cancelled"⟩) := by
  have base : ∀ (db : Db) (appointment_id callerId : Nat) (reason : Option String) (now : Nat)
      (appt : Appointment),
      db.appointments.find? (fun a => a.id = appointment_id) = some appt →
      appt.owner_id = callerId →
      appt.status ≠ .booked →
      appt.status ≠ .rescheduled →
      cancel_appointment db appointment_id callerId reason now =
        .error ⟨400, "Appointment cannot be cancelled"⟩ := by
    intro db appointment_id callerId reason now appt happt howner hb hr
    unfold cancel_appointment
    simp only [happt]
    rw [if_neg (not_not_intro howner), if_pos ⟨hb, hr⟩]
  constructor
  · intro db appointment_id callerId reason now appt happt howner hb hr
    have h := base db appointment_id callerId reason now appt happt howner hb hr
    exact ⟨h, by rw [h]; rfl⟩
  · intro db appointment_id callerId reason reason2 now now2 db2 hok
    obtain ⟨appt, happt, howner, hstatus, rfl⟩ := cancel_appointment_ok hok
    have hfound : (updateAppointments db.appointments appointment_id
        (fun a => { a with
                    status := .cancelled_by_owner
                    cancelled_by := some callerId
                    cancellation_reason := reason
                    cancelled_at := some now
                    updated_at := now })).find? (fun a => a.id = appointment_id) =
        some { appt with
               status := .cancelled_by_owner
               cancelled_by := some callerId
               cancellation_reason := reason
               cancelled_at := some now
               updated_at := now } := by
      rw [find?_updateAppointments_self db.appointments appointment_id
        (fun a => { a with
                    status := .cancelled_by_owner
                    cancelled_by := some callerId
                    cancellation_reason := reason
                    cancelled_at := some now
                    updated_at := now })
        (fun a => rfl), happt]
      rfl
    exact base _ appointment_id callerId reason2 now2 _ hfound howner
      (by simp) (by simp)

/-- C6: after a successful Book, the created appointment's
scheduled_date/start/end equal the slot's slot_date/start_time/end_time as
they were at booking time, and the appointment read path reports these stored
values unchanged under any later mutation of the slots table (it never
re-joins the live slot row). -/
theorem schedule_fields_are_snapshot
    (db : Db) (request : AppointmentCreateRequest) (userId : Nat)
    (codeCandidates : List Nat) (newApptId now : Nat) (db2 : Db) (slot : Slot)
    (hok : create_appointment db request userId codeCandidates newApptId now = .ok db2)
    (hslot : db.slots.find? (fun s => s.id = request.slot_id) = some slot)
    (hfresh : ∀ a ∈ db.appointments, a.id ≠ newApptId) :
    ∀ mutate : List Slot → List Slot,
      (load_appointment_response { db2 with slots := mutate db2.slots } newApptId).map
          (fun v => (v.scheduled_date, v.scheduled_start, v.scheduled_end)) =
        some (slot.slot_date, slot.start_time, slot.end_time) := by
  obtain ⟨slot2, service, code, hslot2, hsvc, hclin, hblk, hcap, htype, hsvccomp, hcode, rfl⟩ :=
    create_appointment_ok hok
  rw [hslot] at hslot2
  obtain rfl := Option.some.inj hslot2
  intro mutate
  unfold load_appointment_response
  have hnone : db.appointments.find? (fun a => a.id = newApptId) = none :=
    List.find?_eq_none.mpr (fun a ha => by simpa using hfresh a ha)
  show (((db.appointments ++ [newAppointmentRow request userId slot code newApptId now
        service.is_emergency]).find? (fun a => a.id = newApptId)).map
        (fun a => ({ confirmation_code := a.confirmation_code
                     appointment_type := a.appointment_type
                     scheduled_date := a.scheduled_date
                     scheduled_start := a.scheduled_start
                     scheduled_end := a.scheduled_end
                     status := a.status } : AppointmentView))).map
        (fun v => (v.scheduled_date, v.scheduled_start, v.scheduled_end)) =
      some (slot.slot_date, slot.start_time, slot.end_time)
  rw [List.find?_append, hnone]
  rw [List.find?_cons_of_pos _ (by simp [newAppointmentRow])]
  rfl

/-- C4 (amended): a successful Reschedule of a booked or rescheduled
appointment sets its status to rescheduled and replaces its slot reference,
vet and scheduled date/start/end with the new slot's values; when the old and
new slots differ, the old slot's counter becomes max(old - 1, 0) (a decrease
by exactly 1 whenever it was positive) and the new slot's counter increases
by 1; when no old slot was referenced, the new slot's counter increases by 1;
when rescheduling onto the very slot the appointment already occupies, the
counter becomes max(old - 1, 0) + 1 (no net change when it was positive). -/
theorem reschedule_success_effects (db : Db) (appointment_id new_slot_id callerId now : Nat)
    (db2 : Db) (appt : Appointment) (new_slot : Slot)
    (happt : db.appointments.find? (fun a => a.id = appointment_id) = some appt)
    (hslot : db.slots.find? (fun s => s.id = new_slot_id) = some new_slot)
    (hok : reschedule_appointment db appointment_id new_slot_id callerId now = .ok db2) :
    (appt.status = .booked ∨ appt.status = .rescheduled) ∧
    db2.appointments.find? (fun a => a.id = appointment_id) =
      some { appt with
             slot_id := some new_slot_id
             vet_id := new_slot.vet_id
             scheduled_date := new_slot.slot_date
             scheduled_start := new_slot.start_time
             scheduled_end := new_slot.end_time
             status := .rescheduled
             updated_at := now } ∧
    (∀ old_slot_id, appt.slot_id = some old_slot_id → old_slot_id ≠ new_slot_id →
      slotBookings db2 old_slot_id =
          (slotBookings db old_slot_id).map (fun cb => max (cb - 1) 0) ∧
        slotBookings db2 new_slot_id = (slotBookings db new_slot_id).map (fun cb => cb + 1)) ∧
    (appt.slot_id = none →
      slotBookings db2 new_slot_id = (slotBookings db new_slot_id).map (fun cb => cb + 1)) ∧
    (appt.slot_id = some new_slot_id →
      slotBookings db2 new_slot_id =
        (slotBookings db new_slot_id).map (fun cb => max (cb - 1) 0 + 1)) := by
  obtain ⟨appt2, new_slot2, happt2, howner, hstatus, hslot2, hclin, hblk, hcap, hsvc, rfl⟩ :=
    reschedule_appointment_ok hok
  rw [happt] at happt2
  obtain rfl := Option.some.inj happt2
  rw [hslot] at hslot2
  obtain rfl := Option.some.inj hslot2
  refine ⟨hstatus, ?_, ?_, ?_, ?_⟩
  · show (updateAppointments db.appointments appointment_id _).find? _ = _
    rw [find?_updateAppointments_self db.appointments appointment_id
      (fun a => { a with
                  slot_id := some new_slot_id
                  vet_id := new_slot.vet_id
                  scheduled_date := new_slot.slot_date
                  scheduled_start := new_slot.start_time
                  scheduled_end := new_slot.end_time
                  status := .rescheduled
                  updated_at := now })
      (fun a => rfl), happt]
    rfl
  · intro old_slot_id hold hne
    rw [hold]
    constructor
    · show ((bumpBookings (bumpBookings db.slots old_slot_id (fun cb => max (cb - 1) 0))
            new_slot_id (fun cb => cb + 1)).find? (fun s => s.id = old_slot_id)).map
            (·.current_bookings) =
          ((db.slots.find? (fun s => s.id = old_slot_id)).map (·.current_bookings)).map
            (fun cb => max (cb - 1) 0)
      rw [find?_bumpBookings_ne _ new_slot_id old_slot_id _ hne]
      rw [find?_bumpBookings_self]
      cases db.slots.find? (fun s => s.id = old_slot_id) <;> rfl
    · show ((bumpBookings (bumpBookings db.slots old_slot_id (fun cb => max (cb - 1) 0))
            new_slot_id (fun cb => cb + 1)).find? (fun s => s.id = new_slot_id)).map
            (·.current_bookings) =
          ((db.slots.find? (fun s => s.id = new_slot_id)).map (·.current_bookings)).map
            (fun cb => cb + 1)
      rw [find?_bumpBookings_self]
      rw [find?_bumpBookings_ne _ old_slot_id new_slot_id _ (fun h => hne h.symm)]
      cases db.slots.find? (fun s => s.id = new_slot_id) <;> rfl
  · intro hold
    rw [hold]
    show ((bumpBookings db.slots new_slot_id (fun cb => cb + 1)).find?
          (fun s => s.id = new_slot_id)).map (·.current_bookings) =
        ((db.slots.find? (fun s => s.id = new_slot_id)).map (·.current_bookings)).map
          (fun cb => cb + 1)
    rw [find?_bumpBookings_self]
    cases db.slots.find? (fun s => s.id = new_slot_id) <;> rfl
  · intro hold
    rw [hold]
    show ((bumpBookings (bumpBookings db.slots new_slot_id (fun cb => max (cb - 1) 0))
          new_slot_id (fun cb => cb + 1)).find? (fun s => s.id = new_slot_id)).map
          (·.current_bookings) =
        ((db.slots.find? (fun s => s.id = new_slot_id)).map (·.current_bookings)).map
          (fun cb => max (cb - 1) 0 + 1)
    rw [find?_bumpBookings_self, find?_bumpBookings_self]
    cases db.slots.find? (fun s => s.id = new_slot_id) <;> rfl

/-- C4 counterexample: rescheduling appointment 4 of exDb onto slot 6 — the
slot it already occupies (occupancy 1 of 2) — succeeds, yet slot 6's
current_bookings stays at 1: the new slot's counter does not increase by 1
and the old slot's counter does not decrease by 1, refuting the claim as
stated for the old-slot-equals-new-slot case. -/
theorem reschedule_same_slot_counterexample :
    (reschedule_appointment exDb 4 6 10 8).isOk = true ∧
    slotBookings exDb 6 = some 1 ∧
    slotBookings (commitOf exDb (reschedule_appointment exDb 4 6 10 8)) 6 = some 1 := by
  decide

/-- C8: confirmation-code generation retries on collision: when every
candidate collides the generator gives up (and Book then fails with HTTP 500
Internal, third part), but a colliding first candidate is simply skipped —
Book with candidates c1 :: cs behaves exactly as with cs when c1 collides, so
a single collision never by itself fails the booking. -/
theorem confirmation_code_collision_retry :
    (∀ (candidates existing : List Nat), (∀ c ∈ candidates, c ∈ existing) →
      generate_confirmation_code candidates existing = none) ∧
    (∀ (db : Db) (request : AppointmentCreateRequest) (userId c1 : Nat)
        (cs : List Nat) (newApptId now : Nat),
      c1 ∈ db.appointments.map (·.confirmation_code) →
      create_appointment db request userId (c1 :: cs) newApptId now =
        create_appointment db request userId cs newApptId now) ∧
    (∀ (db : Db) (request : AppointmentCreateRequest) (userId : Nat)
        (codeCandidates : List Nat) (newApptId now : Nat) (slot : Slot),
      request.clinic_id ∈ db.clinics →
      (db.pets.find? (fun p => p.id = request.pet_id ∧ p.owner_id = userId)).isSome = true →
      (db.services.find? (fun s => s.id = request.service_id ∧ s.is_active)).isSome = true →
      db.slots.find? (fun s => s.id = request.slot_id) = some slot →
      slot.clinic_id = request.clinic_id →
      slot.is_blocked = false →
      slot.current_bookings < slot.max_bookings →
      slot.slot_type = request.appointment_type →
      (slot.service_id = none ∨ slot.service_id = some request.service_id) →
      generate_confirmation_code codeCandidates
          (db.appointments.map (·.confirmation_code)) = none →
      create_appointment db request userId codeCandidates newApptId now =
        .error ⟨500, "Failed to generate confirmation code"⟩) := by
  refine ⟨?_, ?_, ?_⟩
  · intro candidates existing hall
    induction candidates with
    | nil => rfl
    | cons c rest ih =>
      have hc : c ∈ existing := hall c (List.mem_cons_self c rest)
      simp only [generate_confirmation_code, if_pos hc]
      exact ih (fun d hd => hall d (List.mem_cons_of_mem c hd))
  · intro db request userId c1 cs newApptId now hc1
    have hgen : generate_confirmation_code (c1 :: cs)
        (db.appointments.map (·.confirmation_code)) =
        generate_confirmation_code cs (db.appointments.map (·.confirmation_code)) := by
      simp only [generate_confirmation_code, if_pos hc1]
    unfold create_appointment
    rw [hgen]
  · intro db request userId codeCandidates newApptId now slot hclinic hpet hsvc hslot hc hblk
      hcap htype hsvccomp hgen
    obtain ⟨pet, hpet⟩ := Option.isSome_iff_exists.mp hpet
    obtain ⟨svc, hsvc⟩ := Option.isSome_iff_exists.mp hsvc
    unfold create_appointment
    rw [if_neg (not_not_intro hclinic)]
    simp only [hpet, hsvc, hslot]
    rw [if_neg (not_not_intro hc)]
    rw [if_neg (show ¬ (slot.is_blocked = true ∨ slot.max_bookings ≤ slot.current_bookings) by
      rintro (h1 | h1)
      · rw [hblk] at h1; exact Bool.false_ne_true h1
      · omega)]
    rw [if_neg (not_not_intro htype)]
    rw [if_neg (show ¬ (slot.service_id.isSome = true ∧
        slot.service_id ≠ some request.service_id) by
      rintro ⟨h1, h2⟩
      rcases hsvccomp with h3 | h3
      · rw [h3] at h1; exact Bool.false_ne_true h1
      · exact h2 h3)]
    simp only [hgen]

/-- C9: the availability-slots query returns exactly the unblocked,
non-full slots of the requested clinic in the requested date range with the
requested kind, a null or matching service constraint and a matching vet when
a vet filter is given — as a finite list, a permutation of the filtered table
ordered by slot date then start time — and it is a pure read of the database
state. -/
theorem availability_query_correct (db : Db) (clinic_id service_id start_date end_date : Nat)
    (slot_type : VisitKind) (vet_id : Option Nat) :
    (get_available_slots db clinic_id service_id start_date end_date slot_type vet_id).Perm
      (db.slots.filter
        (offerableFilter clinic_id service_id start_date end_date slot_type vet_id)) ∧
    (∀ s, s ∈ get_available_slots db clinic_id service_id start_date end_date slot_type vet_id ↔
      (s ∈ db.slots ∧ s.clinic_id = clinic_id ∧ start_date ≤ s.slot_date ∧
        s.slot_date ≤ end_date ∧ s.is_blocked = false ∧
        s.current_bookings < s.max_bookings ∧ s.slot_type = slot_type ∧
        (s.service_id = none ∨ s.service_id = some service_id) ∧
        (vet_id = none ∨ s.vet_id = vet_id))) ∧
    (get_available_slots db clinic_id service_id start_date end_date slot_type vet_id).Pairwise
      (fun a b => a.slot_date < b.slot_date ∨
        (a.slot_date = b.slot_date ∧ a.start_time ≤ b.start_time)) := by
  refine ⟨List.mergeSort_perm _ _, ?_, ?_⟩
  · intro s
    unfold get_available_slots
    rw [List.mem_mergeSort, List.mem_filter]
    unfold offerableFilter
    simp [and_assoc]
  · have htrans : ∀ a b c : Slot, slotOrder a b → slotOrder b c → slotOrder a c := by
      intro a b c hab hbc
      simp only [slotOrder, decide_eq_true_eq] at hab hbc ⊢
      omega
    have htotal : ∀ a b : Slot, slotOrder a b || slotOrder b a := by
      intro a b
      simp only [slotOrder, Bool.or_eq_true, decide_eq_true_eq]
      omega
    have hs := List.sorted_mergeSort htrans htotal
      (db.slots.filter
        (offerableFilter clinic_id service_id start_date end_date slot_type vet_id))
    exact hs.imp (fun hab => by simpa [slotOrder] using hab)

/-- C10 (implicit): Reschedule never compares the new slot's kind to the
appointment's appointment_type: in exDb, the in_person appointment 1 is
successfully rescheduled onto home_visit slot 5 with its stored kind
unchanged, the home_visit appointment 4 is successfully rescheduled onto
in_person slot 1 with its stored kind unchanged, while Book rejects the same
kind mismatch with HTTP 400. -/
theorem reschedule_ignores_slot_kind :
    (reschedule_appointment exDb 1 5 10 8).isOk = true ∧
    (load_appointment_response (applyOp exDb (.reschedule 1 5 10 8)) 1).map
        (·.appointment_type) = some .in_person ∧
    ((exDb.slots.find? (fun s => s.id = 5)).map (·.slot_type)) = some .home_visit ∧
    (reschedule_appointment exDb 4 1 10 8).isOk = true ∧
    (load_appointment_response (applyOp exDb (.reschedule 4 1 10 8)) 4).map
        (·.appointment_type) = some .home_visit ∧
    ((exDb.slots.find? (fun s => s.id = 1)).map (·.slot_type)) = some .in_person ∧
    errorOf (create_appointment exDb exReqKindMismatch 10 [600] 9 5) =
      some ⟨400, "Slot type does not match appointment type"⟩ := by
  decide

/-- C1 witness: the capacity bounds hold on exDb and keep holding after a
concrete book / reschedule / cancel history. -/
theorem booking_ops_preserve_capacity_bounds_witness :
    WfSlots exDb ∧ SlotInv exDb ∧
      SlotInv (applyOps exDb
        [.book exReq 10 [600] 9 5, .reschedule 1 1 10 6, .cancel 1 10 none 7]) :=
  ⟨by unfold WfSlots; decide, by unfold SlotInv SlotInvList; decide,
    (booking_ops_preserve_capacity_bounds exDb
      [.book exReq 10 [600] 9 5, .reschedule 1 1 10 6, .cancel 1 10 none 7]
      (by unfold WfSlots; decide) (by unfold SlotInv SlotInvList; decide)).1⟩

/-- C3 witness: booking full slot 3 and rescheduling onto blocked slot 4 both
return HTTP 409 and leave exDb unchanged. -/
theorem full_or_blocked_slot_conflict_witness :
    (create_appointment exDb exReqFull 10 [600] 9 5 =
        .error ⟨409, "Slot is no longer available"⟩ ∧
      commitOf exDb (create_appointment exDb exReqFull 10 [600] 9 5) = exDb) ∧
    (reschedule_appointment exDb 1 4 10 8 =
        .error ⟨409, "New slot is no longer available"⟩ ∧
      commitOf exDb (reschedule_appointment exDb 1 4 10 8) = exDb) :=
  ⟨full_or_blocked_slot_conflict.1 exDb exReqFull 10 [600] 9 5 exSlot3
      (by decide) (by decide) (by decide) (by decide) (by decide) (by decide),
    full_or_blocked_slot_conflict.2 exDb 1 4 10 8 exAppt1 exSlot4
      (by decide) (by decide) (by decide) (by decide) (by decide) (by decide)⟩

/-- C4 witness: rescheduling appointment 1 from slot 3 onto the distinct
slot 2 decrements slot 3 and increments slot 2. -/
theorem reschedule_success_effects_witness :
    slotBookings (applyOp exDb (.reschedule 1 2 10 8)) 3 =
        (slotBookings exDb 3).map (fun cb => max (cb - 1) 0) ∧
      slotBookings (applyOp exDb (.reschedule 1 2 10 8)) 2 =
        (slotBookings exDb 2).map (fun cb => cb + 1) :=
  (reschedule_success_effects exDb 1 2 10 8 (applyOp exDb (.reschedule 1 2 10 8))
      exAppt1 exSlot2 (by decide) (by decide) rfl).2.2.1 3 (by decide) (by decide)

/-- C5 witness: cancelling the already-cancelled appointment 2 fails with
HTTP 400 and changes nothing, and cancelling appointment 1 twice fails the
second time with HTTP 400. -/
theorem cancel_wrong_status_rejected_witness :
    (cancel_appointment exDb 2 10 none 9 =
        .error ⟨400, "Appointment cannot be cancelled"⟩ ∧
      commitOf exDb (cancel_appointment exDb 2 10 none 9) = exDb) ∧
    cancel_appointment (applyOp exDb (.cancel 1 10 none 9)) 1 10 none 11 =
      .error ⟨400, "Appointment cannot be cancelled"⟩ :=
  ⟨cancel_wrong_status_rejected.1 exDb 2 10 none 9 exAppt2
      (by decide) (by decide) (by decide) (by decide),
    cancel_wrong_status_rejected.2 exDb 1 10 none none 9 11
      (applyOp exDb (.cancel 1 10 none 9)) rfl⟩

/-- C6 witness: after booking slot 1 of exDb, the stored schedule of the new
appointment 9 survives even deleting every slot row. -/
theorem schedule_fields_are_snapshot_witness :
    (load_appointment_response
        { applyOp exDb (.book exReq 10 [600] 9 5) with slots := [] } 9).map
        (fun v => (v.scheduled_date, v.scheduled_start, v.scheduled_end)) =
      some (exSlot1.slot_date, exSlot1.start_time, exSlot1.end_time) :=
  schedule_fields_are_snapshot exDb exReq 10 [600] 9 5
    (applyOp exDb (.book exReq 10 [600] 9 5)) exSlot1 rfl (by decide) (by decide)
    (fun _ => [])

/-- C7 witness: user 10 can neither reschedule nor cancel appointment 3,
which belongs to user 11. -/
theorem non_owner_forbidden_witness :
    reschedule_appointment exDb 3 1 10 8 = .error ⟨403, "Not authorized"⟩ ∧
    cancel_appointment exDb 3 10 none 8 = .error ⟨403, "Not authorized"⟩ :=
  non_owner_forbidden exDb 3 1 10 none 8 exAppt3 (by decide) (by decide)

/-- C8 witness: a generator whose candidates all collide yields none; a
booking offered the colliding candidate 901 then the fresh 600 behaves as if
offered 600 alone; a booking offered only the colliding 901 fails with
HTTP 500. -/
theorem confirmation_code_collision_retry_witness :
    generate_confirmation_code [901, 902] [901, 902] = none ∧
    create_appointment exDb exReq 10 [901, 600] 9 5 =
      create_appointment exDb exReq 10 [600] 9 5 ∧
    create_appointment exDb exReq 10 [901] 9 5 =
      .error ⟨500, "Failed to generate confirmation code"⟩ :=
  ⟨confirmation_code_collision_retry.1 [901, 902] [901, 902] (by decide),
    confirmation_code_collision_retry.2.1 exDb exReq 10 901 [600] 9 5 (by decide),
    confirmation_code_collision_retry.2.2 exDb exReq 10 [901] 9 5 exSlot1
      (by decide) (by decide) (by decide) (by decide) (by decide) (by decide) (by decide)
      (by decide) (by decide) (by decide)⟩

end FindMyVet
